import Mathlib

/-!
Verification of the Voice AI Dashboard call system (app.py) against its
natural-language specification.  The Python source is shallowly embedded:
pure string manipulation is modelled over List Char, the stateful parts
(network calls, the Streamlit session history) are modelled by explicit
state passing over environment-supplied outcomes.
-/

namespace VoiceDashboard

/-! ### Python string replace

Python s.replace(pat, rep) replaces every non-overlapping occurrence of
pat in s, scanning left to right.  For an empty pattern Python inserts
rep before every character and once at the end.  The recursion is fuelled
by the length of the string so that the kernel can evaluate it.
-/

/-- Fuelled core of Python str.replace.  The fuel is an upper bound on the
length of the scanned string; each step consumes one character or one
pattern-sized block. -/
def pyReplaceF (pat rep : List Char) : Nat → List Char → List Char
  | _, [] => if pat = [] then rep else []
  | 0, s => s
  | Nat.succ f, c :: cs =>
    if pat ≠ [] ∧ pat.isPrefixOf (c :: cs) then
      rep ++ pyReplaceF pat rep f (cs.drop (pat.length - 1))
    else if pat = [] then
      rep ++ c :: pyReplaceF pat rep f cs
    else
      c :: pyReplaceF pat rep f cs

/-- Python str.replace(pat, rep) on s, modelled over lists of characters. -/
def pyReplace (pat rep s : List Char) : List Char :=
  pyReplaceF pat rep s.length s

/-- Placeholder text for a key, as built on app.py line 124: two opening
braces, the key, two closing braces. -/
def placeholder (k : List Char) : List Char :=
  '{' :: '{' :: (k ++ ['}', '}'])

/-- Embedding of UltravoxTwilioCallSystem.get_formatted_prompt
(app.py lines 118-127): for each key value pair of the customer data, in
iteration order, replace every occurrence of the placeholder of the key by
the value.  Python dict iteration order is insertion order, so the mapping
is an association list; values are already the str forms. -/
def get_formatted_prompt (prompt_template : List Char)
    (customer_data : List (List Char × List Char)) : List Char :=
  customer_data.foldl
    (fun acc kv => pyReplace (placeholder kv.1) kv.2 acc) prompt_template

/-- Fuelled single pass simultaneous substitution, written from the words
of the specification (every occurrence of a placeholder of a key of the
mapping is replaced by the value of that key, everything else, including
placeholders of absent keys, is left verbatim; substituted values are not
rescanned).  Used only to compare the code formatter against the claimed
behaviour. -/
def specSubstituteF (m : List (List Char × List Char)) : Nat → List Char → List Char
  | _, [] => []
  | 0, s => s
  | Nat.succ f, c :: cs =>
    match m.find? (fun kv => (placeholder kv.1).isPrefixOf (c :: cs)) with
    | some kv => kv.2 ++ specSubstituteF m f (cs.drop (kv.1.length + 3))
    | none => c :: specSubstituteF m f cs

/-- Simultaneous substitution according to the specification wording. -/
def specSubstitute (m : List (List Char × List Char)) (t : List Char) : List Char :=
  specSubstituteF m t.length t

/-! ### Basic facts about pyReplace -/

theorem placeholder_ne_nil (k : List Char) : placeholder k ≠ [] := by
  simp [placeholder]

theorem placeholder_length (k : List Char) :
    (placeholder k).length = k.length + 4 := by
  simp [placeholder]

theorem pyReplaceF_eq_of_le (pat rep : List Char) :
    ∀ f g s, s.length ≤ f → s.length ≤ g →
      pyReplaceF pat rep f s = pyReplaceF pat rep g s := by
  intro f
  induction f with
  | zero =>
    intro g s hf _
    have : s = [] := List.eq_nil_of_length_eq_zero (Nat.le_zero.mp hf)
    subst this
    cases g <;> rfl
  | succ f ih =>
    intro g s hf hg
    cases s with
    | nil => cases g <;> rfl
    | cons c cs =>
      cases g with
      | zero => simp at hg
      | succ g =>
        simp only [pyReplaceF]
        by_cases hp : pat ≠ [] ∧ pat.isPrefixOf (c :: cs)
        · simp only [if_pos hp]
          have hlen : (cs.drop (pat.length - 1)).length ≤ f := by
            have := List.length_drop (pat.length - 1) cs
            simp only [List.length_cons] at hf
            omega
          have hlen2 : (cs.drop (pat.length - 1)).length ≤ g := by
            have := List.length_drop (pat.length - 1) cs
            simp only [List.length_cons] at hg
            omega
          rw [ih g _ hlen hlen2]
        · simp only [if_neg hp]
          have hcs : cs.length ≤ f := by
            simp only [List.length_cons] at hf; omega
          have hcs2 : cs.length ≤ g := by
            simp only [List.length_cons] at hg; omega
          by_cases he : pat = []
          · simp only [if_pos he, ih g cs hcs hcs2]
          · simp only [if_neg he, ih g cs hcs hcs2]

theorem pyReplace_nil (pat rep : List Char) :
    pyReplace pat rep [] = if pat = [] then rep else [] := rfl

theorem pyReplace_cons (pat rep : List Char) (c : Char) (cs : List Char) :
    pyReplace pat rep (c :: cs) =
      if pat ≠ [] ∧ pat.isPrefixOf (c :: cs) then
        rep ++ pyReplace pat rep (cs.drop (pat.length - 1))
      else if pat = [] then
        rep ++ c :: pyReplace pat rep cs
      else
        c :: pyReplace pat rep cs := by
  show pyReplaceF pat rep (cs.length + 1) (c :: cs) = _
  simp only [pyReplaceF]
  by_cases hp : pat ≠ [] ∧ pat.isPrefixOf (c :: cs)
  · simp only [if_pos hp]
    have h1 : (cs.drop (pat.length - 1)).length ≤ cs.length := by
      simp [List.length_drop]
    rw [pyReplaceF_eq_of_le pat rep cs.length _ _ h1 le_rfl]
    rfl
  · simp only [if_neg hp]
    rfl

theorem pyReplace_cons_pos (pat rep : List Char) (c : Char) (cs : List Char)
    (hne : pat ≠ []) (hp : pat.isPrefixOf (c :: cs)) :
    pyReplace pat rep (c :: cs) =
      rep ++ pyReplace pat rep (cs.drop (pat.length - 1)) := by
  rw [pyReplace_cons, if_pos ⟨hne, hp⟩]

theorem pyReplace_cons_neg (pat rep : List Char) (c : Char) (cs : List Char)
    (hne : pat ≠ []) (hp : ¬ pat.isPrefixOf (c :: cs)) :
    pyReplace pat rep (c :: cs) = c :: pyReplace pat rep cs := by
  rw [pyReplace_cons, if_neg (by intro h; exact hp h.2), if_neg hne]

/-- Replacing a pattern that does not occur in the string is the identity. -/
theorem pyReplace_of_not_occurring (pat rep : List Char) (hne : pat ≠ []) :
    ∀ s : List Char, ¬ pat <:+: s → pyReplace pat rep s = s := by
  intro s
  induction s with
  | nil => intro _; rw [pyReplace_nil, if_neg hne]
  | cons c cs ih =>
    intro h
    have hp : ¬ pat.isPrefixOf (c :: cs) := by
      intro hpre
      exact h (List.IsPrefix.isInfix (List.isPrefixOf_iff_prefix.mp hpre))
    rw [pyReplace_cons_neg pat rep c cs hne hp]
    rw [ih (fun hin => h (List.infix_cons hin))]

/-- If the pattern occurs in the string then the replacement text occurs
in the result of the replacement. -/
theorem rep_infix_pyReplace (pat rep : List Char) (hne : pat ≠ []) :
    ∀ s : List Char, pat <:+: s → rep <:+: pyReplace pat rep s := by
  intro s
  induction s with
  | nil =>
    intro h
    exact absurd (List.eq_nil_of_infix_nil h) hne
  | cons c cs ih =>
    intro h
    by_cases hp : pat.isPrefixOf (c :: cs)
    · rw [pyReplace_cons_pos pat rep c cs hne hp]
      exact List.IsPrefix.isInfix (List.prefix_append rep _)
    · rw [pyReplace_cons_neg pat rep c cs hne hp]
      have : pat <:+: cs := by
        rcases List.infix_cons_iff.mp h with hpre | hin
        · exact absurd (List.isPrefixOf_iff_prefix.mpr hpre) hp
        · exact hin
      exact List.infix_cons (ih this)

/-! ### Facts about the simultaneous substitution of the specification -/

theorem specSubstituteF_eq_of_le (m : List (List Char × List Char)) :
    ∀ f g s, s.length ≤ f → s.length ≤ g →
      specSubstituteF m f s = specSubstituteF m g s := by
  intro f
  induction f with
  | zero =>
    intro g s hf _
    have : s = [] := List.eq_nil_of_length_eq_zero (Nat.le_zero.mp hf)
    subst this
    cases g <;> rfl
  | succ f ih =>
    intro g s hf hg
    cases s with
    | nil => cases g <;> rfl
    | cons c cs =>
      cases g with
      | zero => simp at hg
      | succ g =>
        simp only [specSubstituteF]
        cases hfind : m.find? (fun kv => (placeholder kv.1).isPrefixOf (c :: cs)) with
        | none =>
          have hcs : cs.length ≤ f := by
            simp only [List.length_cons] at hf; omega
          have hcs2 : cs.length ≤ g := by
            simp only [List.length_cons] at hg; omega
          rw [ih g cs hcs hcs2]
        | some kv =>
          have h1 : (cs.drop (kv.1.length + 3)).length ≤ f := by
            have := List.length_drop (kv.1.length + 3) cs
            simp only [List.length_cons] at hf
            omega
          have h2 : (cs.drop (kv.1.length + 3)).length ≤ g := by
            have := List.length_drop (kv.1.length + 3) cs
            simp only [List.length_cons] at hg
            omega
          dsimp only
          rw [ih g _ h1 h2]

theorem specSubstitute_cons (m : List (List Char × List Char)) (c : Char)
    (cs : List Char) :
    specSubstitute m (c :: cs) =
      match m.find? (fun kv => (placeholder kv.1).isPrefixOf (c :: cs)) with
      | some kv => kv.2 ++ specSubstitute m (cs.drop (kv.1.length + 3))
      | none => c :: specSubstitute m cs := by
  show specSubstituteF m (cs.length + 1) (c :: cs) = _
  simp only [specSubstituteF]
  cases hfind : m.find? (fun kv => (placeholder kv.1).isPrefixOf (c :: cs)) with
  | none => rfl
  | some kv =>
    have h1 : (cs.drop (kv.1.length + 3)).length ≤ cs.length := by
      simp [List.length_drop]
    dsimp only
    rw [specSubstituteF_eq_of_le m cs.length _ _ h1 le_rfl]
    rfl

/-- On a one key mapping the sequential formatter of the code coincides
with the simultaneous substitution described by the specification. -/
theorem pyReplace_eq_specSubstitute_single (k v : List Char) :
    ∀ n (s : List Char), s.length ≤ n →
      pyReplace (placeholder k) v s = specSubstitute [(k, v)] s := by
  intro n
  induction n with
  | zero =>
    intro s hs
    have : s = [] := List.eq_nil_of_length_eq_zero (Nat.le_zero.mp hs)
    subst this
    rw [pyReplace_nil, if_neg (placeholder_ne_nil k)]
    rfl
  | succ n ih =>
    intro s hs
    cases s with
    | nil =>
      rw [pyReplace_nil, if_neg (placeholder_ne_nil k)]
      rfl
    | cons c cs =>
      rw [specSubstitute_cons]
      by_cases hp : (placeholder k).isPrefixOf (c :: cs)
      · rw [pyReplace_cons_pos _ _ _ _ (placeholder_ne_nil k) hp]
        have hfind : List.find?
            (fun kv => (placeholder kv.1).isPrefixOf (c :: cs)) [(k, v)]
            = some (k, v) := by
          simp [List.find?, hp]
        rw [hfind]
        have hd : (placeholder k).length - 1 = k.length + 3 := by
          rw [placeholder_length]; omega
        rw [hd]
        have hlen : (cs.drop (k.length + 3)).length ≤ n := by
          have := List.length_drop (k.length + 3) cs
          simp only [List.length_cons] at hs
          omega
        rw [ih _ hlen]
      · rw [pyReplace_cons_neg _ _ _ _ (placeholder_ne_nil k) hp]
        have hfind : List.find?
            (fun kv => (placeholder kv.1).isPrefixOf (c :: cs)) [(k, v)]
            = none := by
          simp [List.find?, hp]
        rw [hfind]
        have hlen : cs.length ≤ n := by
          simp only [List.length_cons] at hs; omega
        rw [ih _ hlen]

/-- Unfolding of the formatter over the first key of the mapping. -/
theorem get_formatted_prompt_cons (t : List Char) (kv : List Char × List Char)
    (m : List (List Char × List Char)) :
    get_formatted_prompt t (kv :: m) =
      get_formatted_prompt (pyReplace (placeholder kv.1) kv.2 t) m := rfl

/-- C8: prompt formatting is the identity on templates that contain no
placeholder token of any key of the mapping. -/
theorem get_formatted_prompt_id_of_no_placeholder (t : List Char)
    (m : List (List Char × List Char))
    (h : ∀ kv ∈ m, ¬ (placeholder kv.1 <:+: t)) :
    get_formatted_prompt t m = t := by
  induction m with
  | nil => rfl
  | cons kv m ih =>
    rw [get_formatted_prompt_cons]
    rw [pyReplace_of_not_occurring _ _ (placeholder_ne_nil kv.1) t
      (h kv (List.mem_cons_self kv m))]
    exact ih (fun kv2 hm => h kv2 (List.mem_cons_of_mem _ hm))

/-- C8 witness: a concrete placeholder free template is returned verbatim. -/
theorem get_formatted_prompt_id_of_no_placeholder_witness :
    get_formatted_prompt ['h', 'i'] [(['a'], ['1'])] = ['h', 'i'] :=
  get_formatted_prompt_id_of_no_placeholder _ _ (by decide)

/-- C2 counterexample: with the mapping assigning to x the value consisting
of the placeholder of y, and to y the value 7, the code formatter gives 7
for the template consisting of the placeholder of x, while the claimed
simultaneous substitution (every occurrence of a placeholder of a mapped
key replaced by the string form of its value, nothing else changed) gives
the placeholder of y: the substituted value was rescanned and rewritten,
so the occurrence site does not hold the value of x in the output. -/
theorem get_formatted_prompt_not_simultaneous :
    get_formatted_prompt ['{', '{', 'x', '}', '}']
      [(['x'], ['{', '{', 'y', '}', '}']), (['y'], ['7'])] = ['7'] ∧
    specSubstitute [(['x'], ['{', '{', 'y', '}', '}']), (['y'], ['7'])]
      ['{', '{', 'x', '}', '}'] = ['{', '{', 'y', '}', '}'] ∧
    get_formatted_prompt ['{', '{', 'x', '}', '}']
      [(['x'], ['{', '{', 'y', '}', '}']), (['y'], ['7'])] ≠
    specSubstitute [(['x'], ['{', '{', 'y', '}', '}']), (['y'], ['7'])]
      ['{', '{', 'x', '}', '}'] := by
  refine ⟨by decide, by decide, by decide⟩

/-- C2 amended: on a one key mapping the formatter realises exactly the
claimed substitution (every literal occurrence of the placeholder of the
key replaced by the value, everything else, including placeholders of
absent keys, left verbatim, with no rescanning); with several keys the
replacement is sequential in iteration order and substituted values are
rescanned by later keys, as the counterexample shows. -/
theorem get_formatted_prompt_single_key_exact (k v t : List Char) :
    get_formatted_prompt t [(k, v)] = specSubstitute [(k, v)] t :=
  pyReplace_eq_specSubstitute_single k v t.length t le_rfl

/-- C3 counterexample: with the mapping assigning to a the value consisting
of the placeholder of b, and to b the value X, the formatter applied to the
template consisting of the placeholder of a returns X: the token embedded
in the substituted value was replaced, and no occurrence of the placeholder
of b remains in the output. -/
theorem get_formatted_prompt_rescans_substituted_value :
    get_formatted_prompt ['{', '{', 'a', '}', '}']
      [(['a'], ['{', '{', 'b', '}', '}']), (['b'], ['X'])] = ['X'] ∧
    ¬ (placeholder ['b'] <:+:
      get_formatted_prompt ['{', '{', 'a', '}', '}']
        [(['a'], ['{', '{', 'b', '}', '}']), (['b'], ['X'])]) := by
  refine ⟨by decide, by decide⟩

/-- C3 amended: a substituted value is rescanned only by the passes of keys
that come later in the iteration order of the mapping; it is never rescanned
for the placeholder of a key that comes at or before its own position.  In
particular, for a two key mapping, if the value of the second key embeds the
placeholder of the first key, that embedded token survives verbatim into
the output. -/
theorem get_formatted_prompt_no_backward_rescan (a va b vb t : List Char)
    (h1 : placeholder b <:+: pyReplace (placeholder a) va t)
    (h2 : placeholder a <:+: vb) :
    placeholder a <:+: get_formatted_prompt t [(a, va), (b, vb)] := by
  have hrepr : get_formatted_prompt t [(a, va), (b, vb)] =
      pyReplace (placeholder b) vb (pyReplace (placeholder a) va t) := rfl
  rw [hrepr]
  exact List.IsInfix.trans h2
    (rep_infix_pyReplace _ _ (placeholder_ne_nil b) _ h1)

/-- C3 amended witness: concretely, the placeholder of a embedded in the
value of b survives into the output. -/
theorem get_formatted_prompt_no_backward_rescan_witness :
    placeholder ['a'] <:+:
      get_formatted_prompt ['{', '{', 'b', '}', '}']
        [(['a'], ['1']), (['b'], ['{', '{', 'a', '}', '}'])] :=
  get_formatted_prompt_no_backward_rescan ['a'] ['1'] ['b']
    ['{', '{', 'a', '}', '}'] ['{', '{', 'b', '}', '}'] (by decide) (by decide)

/-! ### Credentials (app.py lines 63-71 and 94-116)

Secrets come from the Streamlit secret store; a missing key yields None and
Python truthiness treats both None and the empty string as not configured.
-/

/-- Secret store contents relevant to the app: the four required secrets
copied onto the system in init, and the three optional ones re-read by
validate_credentials. -/
structure Secrets where
  twilio_account_sid : Option String
  twilio_auth_token : Option String
  ultravox_api_key : Option String
  elevenlabs_api_key : Option String
  openai_api_key : Option String
  anthropic_api_key : Option String
  google_api_key : Option String

/-- Python truthiness of an optional string: None and the empty string are
falsy, every other string is truthy. -/
def truthy : Option String → Bool
  | none => false
  | some s => !(s == "")

/-- Embedding of UltravoxTwilioCallSystem.validate_credentials
(app.py lines 94-116): the list of missing required secret names, built by
four appends in fixed textual order, paired with the list of missing
optional secret names. -/
def validate_credentials (s : Secrets) : List String × List String :=
  ((if truthy s.twilio_account_sid then [] else ["TWILIO_ACCOUNT_SID"]) ++
   (if truthy s.twilio_auth_token then [] else ["TWILIO_AUTH_TOKEN"]) ++
   (if truthy s.ultravox_api_key then [] else ["ULTRAVOX_API_KEY"]) ++
   (if truthy s.elevenlabs_api_key then [] else ["ELEVENLABS_API_KEY"]),
   (if truthy s.openai_api_key then [] else ["OPENAI_API_KEY"]) ++
   (if truthy s.anthropic_api_key then [] else ["ANTHROPIC_API_KEY"]) ++
   (if truthy s.google_api_key then [] else ["GOOGLE_API_KEY"]))

/-- C7: with no required secret configured the missing list is exactly the
four required names in their fixed order; with all four configured it is
empty; and for every credential state the returned list is a sublist of
that fixed four name sequence, so its order is the same deterministic
order on every call. -/
theorem validate_credentials_required (s : Secrets) :
    ((truthy s.twilio_account_sid = false ∧ truthy s.twilio_auth_token = false ∧
      truthy s.ultravox_api_key = false ∧ truthy s.elevenlabs_api_key = false) →
      (validate_credentials s).1 =
        ["TWILIO_ACCOUNT_SID", "TWILIO_AUTH_TOKEN",
         "ULTRAVOX_API_KEY", "ELEVENLABS_API_KEY"]) ∧
    ((truthy s.twilio_account_sid = true ∧ truthy s.twilio_auth_token = true ∧
      truthy s.ultravox_api_key = true ∧ truthy s.elevenlabs_api_key = true) →
      (validate_credentials s).1 = []) ∧
    (validate_credentials s).1.Sublist
      ["TWILIO_ACCOUNT_SID", "TWILIO_AUTH_TOKEN",
       "ULTRAVOX_API_KEY", "ELEVENLABS_API_KEY"] := by
  cases h1 : truthy s.twilio_account_sid <;>
    cases h2 : truthy s.twilio_auth_token <;>
      cases h3 : truthy s.ultravox_api_key <;>
        cases h4 : truthy s.elevenlabs_api_key <;>
          exact ⟨fun h => by simp_all [validate_credentials],
                 fun h => by simp_all [validate_credentials],
                 by simp [validate_credentials, h1, h2, h3, h4]⟩

/-- C7 witness: the theorem applied to the state with no secret configured. -/
theorem validate_credentials_required_witness :
    (validate_credentials ⟨none, none, none, none, none, none, none⟩).1 =
      ["TWILIO_ACCOUNT_SID", "TWILIO_AUTH_TOKEN",
       "ULTRAVOX_API_KEY", "ELEVENLABS_API_KEY"] :=
  (validate_credentials_required ⟨none, none, none, none, none, none, none⟩).1
    (by decide)

/-! ### Voice configuration (app.py lines 129-151) -/

/-- Voice configuration dictionary assembled by the form: a provider tag
plus the ElevenLabs voice id and model, or the built in voice name.  Every
field is optional since the Python code reads each with dict get. -/
structure VoiceConfig where
  provider : Option String
  voiceId : Option String
  model : Option String
  voice : Option String

/-- External voice block sent for an ElevenLabs voice. -/
structure ElevenLabsVoice where
  voiceId : String
  model : String

/-- Session request produced by get_ultravox_config.  The voice field
distinguishes an absent key (none) from a key set to null (some none);
externalVoice is absent when none.  The temperature is passed through
untouched, so its type is a parameter. -/
structure UltravoxConfig (Temp : Type) where
  systemPrompt : String
  model : String
  temperature : Temp
  firstSpeakerSettings : List (String × List (String × String))
  medium : List (String × List (String × String))
  voice : Option (Option String)
  externalVoice : Option ElevenLabsVoice

/-- Embedding of UltravoxTwilioCallSystem.get_ultravox_config
(app.py lines 129-151). -/
def get_ultravox_config {Temp : Type} (system_prompt : String)
    (voice_config : VoiceConfig) (model : String) (temperature : Temp) :
    UltravoxConfig Temp :=
  let config : UltravoxConfig Temp :=
    { systemPrompt := system_prompt
      model := model
      temperature := temperature
      firstSpeakerSettings := [("user", [])]
      medium := [("twilio", [])]
      voice := none
      externalVoice := none }
  if voice_config.provider = some "elevenlabs" then
    { config with
        voice := some none
        externalVoice := some
          { voiceId := voice_config.voiceId.getD "21m00Tcm4TlvDq8ikWAM"
            model := voice_config.model.getD "eleven_turbo_v2_5" } }
  else
    { config with voice := some (some (voice_config.voice.getD "Maansvi")) }

/-- C6: for provider elevenlabs the session request has voice present but
null and the ElevenLabs external voice block set with its voice id; for
every other provider value the request has voice set to the configured
built in name (default Maansvi) and no externalVoice key. -/
theorem get_ultravox_config_voice_selection {Temp : Type}
    (system_prompt : String) (vc : VoiceConfig) (model : String)
    (temperature : Temp) :
    (vc.provider = some "elevenlabs" →
      (get_ultravox_config system_prompt vc model temperature).voice =
        some none ∧
      (get_ultravox_config system_prompt vc model temperature).externalVoice =
        some { voiceId := vc.voiceId.getD "21m00Tcm4TlvDq8ikWAM",
               model := vc.model.getD "eleven_turbo_v2_5" }) ∧
    (vc.provider ≠ some "elevenlabs" →
      (get_ultravox_config system_prompt vc model temperature).voice =
        some (some (vc.voice.getD "Maansvi")) ∧
      (get_ultravox_config system_prompt vc model temperature).externalVoice =
        none) := by
  by_cases h : vc.provider = some "elevenlabs" <;>
    simp [get_ultravox_config, h]

/-- C6 witness: the theorem applied to one concrete ElevenLabs
configuration and one concrete built in configuration. -/
theorem get_ultravox_config_voice_selection_witness :
    ((get_ultravox_config "p"
        ⟨some "elevenlabs", some "v1", some "m1", none⟩
        "fixie-ai/ultravox" (3 : Nat)).voice = some none ∧
     (get_ultravox_config "p"
        ⟨some "elevenlabs", some "v1", some "m1", none⟩
        "fixie-ai/ultravox" (3 : Nat)).externalVoice =
          some { voiceId := "v1", model := "m1" }) ∧
    ((get_ultravox_config "p"
        ⟨some "built-in", none, none, some "Maansvi"⟩
        "fixie-ai/ultravox" (3 : Nat)).voice = some (some "Maansvi") ∧
     (get_ultravox_config "p"
        ⟨some "built-in", none, none, some "Maansvi"⟩
        "fixie-ai/ultravox" (3 : Nat)).externalVoice = none) :=
  ⟨(get_ultravox_config_voice_selection "p"
      ⟨some "elevenlabs", some "v1", some "m1", none⟩
      "fixie-ai/ultravox" (3 : Nat)).1 rfl,
   (get_ultravox_config_voice_selection "p"
      ⟨some "built-in", none, none, some "Maansvi"⟩
      "fixie-ai/ultravox" (3 : Nat)).2 (by simp)⟩

/-! ### Call initiation (app.py lines 153-199) and the history append in
main (app.py lines 456-472)

The two network interactions are modelled by environment supplied
outcomes: the POST to the voice session API either raises (any error from
the request, raise_for_status or json decoding, collapsed to its message
string) or yields the parsed response; the telephony call creation either
raises or yields a call sid.  Both raises are caught by the single except
handler of initiate_call.
-/

/-- Parsed voice session API response: joinUrl and callId as read with
dict get, either possibly absent. -/
structure UltravoxResponse where
  joinUrl : Option String
  callId : Option String

/-- Outcomes of the two external calls made by initiate_call. -/
structure InitiateWorld where
  uvPost : Except String UltravoxResponse
  twCreate : Except String String

/-- Result dictionary of initiate_call: a success flag plus the fields the
success and failure branches populate. -/
structure InitiateResult where
  success : Bool
  ultravox_call_id : Option (Option String)
  twilio_call_sid : Option String
  message : Option String
  error : Option String

/-- Embedding of UltravoxTwilioCallSystem.initiate_call
(app.py lines 153-199). -/
def initiate_call (w : InitiateWorld) : InitiateResult :=
  match w.uvPost with
  | Except.error e =>
    { success := false, ultravox_call_id := none, twilio_call_sid := none,
      message := none, error := some e }
  | Except.ok resp =>
    if !(truthy resp.joinUrl) then
      { success := false, ultravox_call_id := none, twilio_call_sid := none,
        message := none,
        error := some "Ultravox API did not return a valid joinUrl." }
    else
      match w.twCreate with
      | Except.error e =>
        { success := false, ultravox_call_id := none,
          twilio_call_sid := none, message := none, error := some e }
      | Except.ok sid =>
        { success := true, ultravox_call_id := some resp.callId,
          twilio_call_sid := some sid,
          message := some ("Call initiated successfully! Twilio SID: " ++ sid),
          error := none }

/-- Call history entry appended by main on success (app.py lines 462-470). -/
structure CallEntry where
  call_id : Option String
  twilio_sid : Option String
  timestamp : String
  customer_name : String
  destination_phone : String
  status : String

/-- Embedding of the history update in main (app.py lines 456-472): a call
entry is appended exactly when the result carries a true success flag;
otherwise the history is left untouched and the error is shown. -/
def main_append (history : List CallEntry) (now customer_name
    destination_phone : String) (result : InitiateResult) : List CallEntry :=
  if result.success then
    history ++ [{ call_id := result.ultravox_call_id.getD none,
                  twilio_sid := result.twilio_call_sid,
                  timestamp := now,
                  customer_name := customer_name,
                  destination_phone := destination_phone,
                  status := "initiated" }]
  else
    history

/-- C1: call record creation is all or nothing.  The success flag holds
exactly when the session POST succeeded with a truthy join URL and the
telephony creation succeeded; when the telephony step fails after a
successful session creation the returned error is the telephony error and
the history is unchanged; and no entry is ever appended without a true
success flag. -/
theorem initiate_call_all_or_nothing (w : InitiateWorld)
    (history : List CallEntry) (now customer_name destination_phone : String) :
    ((initiate_call w).success = true ↔
      ((∃ resp, w.uvPost = Except.ok resp ∧ truthy resp.joinUrl = true) ∧
       (∃ sid, w.twCreate = Except.ok sid))) ∧
    (∀ resp e, w.uvPost = Except.ok resp → truthy resp.joinUrl = true →
      w.twCreate = Except.error e →
      (initiate_call w).error = some e ∧
      main_append history now customer_name destination_phone
        (initiate_call w) = history) ∧
    ((initiate_call w).success = false →
      main_append history now customer_name destination_phone
        (initiate_call w) = history) := by
  refine ⟨?_, ?_, ?_⟩
  · cases huv : w.uvPost with
    | error e => simp [initiate_call, huv]
    | ok resp =>
      cases hj : truthy resp.joinUrl with
      | false => simp [initiate_call, huv, hj]
      | true =>
        cases htw : w.twCreate with
        | error e => simp [initiate_call, huv, hj, htw]
        | ok sid => simp [initiate_call, huv, hj, htw]
  · intro resp e huv hj htw
    simp [initiate_call, huv, hj, htw, main_append]
  · intro hfail
    simp [main_append, hfail]

/-- C1 witness: a concrete world where the session is created with a valid
join URL but the telephony call creation fails; the failure reason is the
telephony error and the history stays empty. -/
theorem initiate_call_all_or_nothing_witness :
    (initiate_call ⟨Except.ok ⟨some "wss://join", some "call-1"⟩,
        Except.error "telephony down"⟩).error = some "telephony down" ∧
    main_append [] "2026-10-12" "Amit" "+911234567890"
      (initiate_call ⟨Except.ok ⟨some "wss://join", some "call-1"⟩,
        Except.error "telephony down"⟩) = [] :=
  (initiate_call_all_or_nothing
      ⟨Except.ok ⟨some "wss://join", some "call-1"⟩,
        Except.error "telephony down"⟩
      [] "2026-10-12" "Amit" "+911234567890").2.1
    ⟨some "wss://join", some "call-1"⟩ "telephony down" rfl rfl rfl

/-! ### Transcript retrieval (app.py lines 201-250)

Raw messages carry a role and a text, each read with dict get (role
defaulting to UNKNOWN, text to the empty string).  The role is cleaned
with Python replace of the text MESSAGE_ROLE_ by the empty string, which
removes every occurrence of that text, and a message is kept when its text
is truthy and the cleaned role is AGENT or USER.  The timestamp recorded
is the wall clock at processing time, passed in as a parameter.
-/

/-- Raw message of the session message list. -/
structure Msg where
  role : Option String
  text : Option String
deriving DecidableEq

/-- Transcript entry built on app.py lines 229-233. -/
structure TranscriptEntry where
  role : String
  text : String
  timestamp : String
deriving DecidableEq

/-- Cleaned role of a raw message (app.py line 225): dict get with default
UNKNOWN, then Python replace of every occurrence of MESSAGE_ROLE_ by the
empty string. -/
def msg_role (m : Msg) : String :=
  String.mk (pyReplace "MESSAGE_ROLE_".toList [] (m.role.getD "UNKNOWN").toList)

/-- Text of a raw message (app.py line 226): dict get with default empty. -/
def msg_text (m : Msg) : String :=
  m.text.getD ""

/-- Embedding of the transcript construction loop of fetch_transcript
(app.py lines 223-233). -/
def buildTranscript (now : String) : List Msg → List TranscriptEntry
  | [] => []
  | m :: rest =>
    if msg_text m ≠ "" ∧ msg_role m ∈ (["AGENT", "USER"] : List String) then
      { role := msg_role m, text := msg_text m, timestamp := now } ::
        buildTranscript now rest
    else
      buildTranscript now rest

/-- Role cleaning as worded by the claim: strip the MESSAGE_ROLE_ prefix
(one leading occurrence only), used to state the claimed filtering. -/
def claim_role (m : Msg) : String :=
  let r := m.role.getD "UNKNOWN"
  if "MESSAGE_ROLE_".toList.isPrefixOf r.toList then
    String.mk (r.toList.drop "MESSAGE_ROLE_".length)
  else
    r

/-- Outcome of one polling iteration, as supplied by the environment: the
status query can fail at transport level, succeed without the ended flag,
or report ended, in which case the follow up messages query either fails
at transport level or yields the raw message list and the end reason. -/
inductive PollOutcome where
  | transportError (e : String)
  | running
  | endedMsgsError (e : String)
  | endedOk (messages : List Msg) (endReason : Option String)
deriving DecidableEq

/-- Externally visible actions of one polling iteration, in program order:
the sleep comes first, then the status query, then, only on ended, the
messages query. -/
inductive FetchEvent where
  | sleep
  | statusQuery
  | messagesQuery
deriving DecidableEq

/-- Result dictionary of fetch_transcript. -/
inductive FetchResult where
  | ok (transcript : List TranscriptEntry) (end_reason : Option String)
  | fail (error : String)
deriving DecidableEq

/-- Embedding of the polling loop of fetch_transcript (app.py lines
209-250): the first argument indexes the current iteration, the second is
the number of iterations left.  Each iteration sleeps, then queries the
status; a transport failure returns at once, an ended session fetches the
messages and returns, and otherwise the loop continues.  Exhausting the
iteration budget yields the timeout failure.  The second component records
the events in order. -/
def fetch_transcript_loop (polls : Nat → PollOutcome) (now : String) :
    Nat → Nat → FetchResult × List FetchEvent
  | _, 0 => (FetchResult.fail "Max wait time exceeded", [])
  | i, Nat.succ r =>
    match polls i with
    | PollOutcome.transportError e =>
      (FetchResult.fail e, [FetchEvent.sleep, FetchEvent.statusQuery])
    | PollOutcome.endedMsgsError e =>
      (FetchResult.fail e,
       [FetchEvent.sleep, FetchEvent.statusQuery, FetchEvent.messagesQuery])
    | PollOutcome.endedOk msgs er =>
      (FetchResult.ok (buildTranscript now msgs) er,
       [FetchEvent.sleep, FetchEvent.statusQuery, FetchEvent.messagesQuery])
    | PollOutcome.running =>
      let rest := fetch_transcript_loop polls now (i + 1) r
      (rest.1, FetchEvent.sleep :: FetchEvent.statusQuery :: rest.2)

/-- Poll interval of fetch_transcript (app.py line 206). -/
def poll_interval : Nat := 5

/-- Embedding of UltravoxTwilioCallSystem.fetch_transcript (app.py lines
201-250): the iteration budget is max_wait_seconds integer divided by the
poll interval. -/
def fetch_transcript (polls : Nat → PollOutcome) (now : String)
    (max_wait_seconds : Nat) : FetchResult × List FetchEvent :=
  fetch_transcript_loop polls now 0 (max_wait_seconds / poll_interval)

/-! ### Facts about the polling loop -/

theorem fetch_transcript_loop_count_le (polls : Nat → PollOutcome)
    (now : String) :
    ∀ r i, List.count FetchEvent.statusQuery
      (fetch_transcript_loop polls now i r).2 ≤ r := by
  intro r
  induction r with
  | zero => intro i; simp [fetch_transcript_loop]
  | succ r ih =>
    intro i
    cases h : polls i with
    | transportError e => simp [fetch_transcript_loop, h, List.count_cons]
    | endedMsgsError e => simp [fetch_transcript_loop, h, List.count_cons]
    | endedOk msgs er => simp [fetch_transcript_loop, h, List.count_cons]
    | running =>
      have := ih (i + 1)
      simp only [fetch_transcript_loop, h, List.count_cons]
      simp
      omega

theorem fetch_transcript_loop_timeout (polls : Nat → PollOutcome)
    (now : String) :
    ∀ r i, (∀ k, k < r → polls (i + k) = PollOutcome.running) →
      (fetch_transcript_loop polls now i r).1 =
        FetchResult.fail "Max wait time exceeded" := by
  intro r
  induction r with
  | zero => intro i _; rfl
  | succ r ih =>
    intro i h
    have h0 : polls i = PollOutcome.running := by
      have := h 0 (Nat.succ_pos r)
      simpa using this
    simp only [fetch_transcript_loop, h0]
    exact ih (i + 1) (fun k hk => by
      have hx := h (k + 1) (Nat.succ_lt_succ hk)
      have he : i + 1 + k = i + (k + 1) := by omega
      rw [he]
      exact hx)

theorem fetch_transcript_loop_error (polls : Nat → PollOutcome)
    (now : String) :
    ∀ j r i e, (∀ k, k < j → polls (i + k) = PollOutcome.running) →
      polls (i + j) = PollOutcome.transportError e → j < r →
      (fetch_transcript_loop polls now i r).1 = FetchResult.fail e ∧
      List.count FetchEvent.statusQuery
        (fetch_transcript_loop polls now i r).2 = j + 1 := by
  intro j
  induction j with
  | zero =>
    intro r i e _ hj hr
    cases r with
    | zero => omega
    | succ r =>
      have h0 : polls i = PollOutcome.transportError e := by simpa using hj
      simp [fetch_transcript_loop, h0, List.count_cons]
  | succ j ih =>
    intro r i e h hj hr
    cases r with
    | zero => omega
    | succ r =>
      have h0 : polls i = PollOutcome.running := by
        have := h 0 (Nat.succ_pos j)
        simpa using this
      have hrec := ih r (i + 1) e
        (fun k hk => by
          have hx := h (k + 1) (Nat.succ_lt_succ hk)
          have he : i + 1 + k = i + (k + 1) := by omega
          rw [he]
          exact hx)
        (by
          have he : i + 1 + j = i + (j + 1) := by omega
          rw [he]
          exact hj)
        (by omega)
      simp only [fetch_transcript_loop, h0]
      refine ⟨hrec.1, ?_⟩
      simp [List.count_cons, hrec.2]

theorem fetch_transcript_loop_head (polls : Nat → PollOutcome)
    (now : String) (i r : Nat) :
    (fetch_transcript_loop polls now i r).2 = [] ∨
      (fetch_transcript_loop polls now i r).2.head? = some FetchEvent.sleep := by
  cases r with
  | zero => exact Or.inl rfl
  | succ r =>
    right
    cases h : polls i <;> simp [fetch_transcript_loop, h]

theorem fetch_transcript_loop_ok_sleeps (polls : Nat → PollOutcome)
    (now : String) :
    ∀ r i t er, (fetch_transcript_loop polls now i r).1 = FetchResult.ok t er →
      1 ≤ List.count FetchEvent.sleep (fetch_transcript_loop polls now i r).2 := by
  intro r
  induction r with
  | zero =>
    intro i t er h
    simp [fetch_transcript_loop] at h
  | succ r _ =>
    intro i t er h
    cases h0 : polls i <;>
      simp [fetch_transcript_loop, h0, List.count_cons] at h ⊢

/-- C4: transcript retrieval is a bounded loop.  The status endpoint is
queried at most max_wait_seconds / 5 times; if every iteration of that
budget sees a still running session the result is the timeout failure with
the fixed message Max wait time exceeded; and a transport failure at some
iteration inside the budget, after only running iterations, makes the loop
return that very failure immediately, having performed exactly that many
status queries and no retry. -/
theorem fetch_transcript_bounded_polling (polls : Nat → PollOutcome)
    (now : String) (max_wait_seconds : Nat) :
    List.count FetchEvent.statusQuery
      (fetch_transcript polls now max_wait_seconds).2 ≤ max_wait_seconds / 5 ∧
    ((∀ i, i < max_wait_seconds / 5 → polls i = PollOutcome.running) →
      (fetch_transcript polls now max_wait_seconds).1 =
        FetchResult.fail "Max wait time exceeded") ∧
    (∀ j e, (∀ i, i < j → polls i = PollOutcome.running) →
      polls j = PollOutcome.transportError e → j < max_wait_seconds / 5 →
      (fetch_transcript polls now max_wait_seconds).1 = FetchResult.fail e ∧
      List.count FetchEvent.statusQuery
        (fetch_transcript polls now max_wait_seconds).2 = j + 1) := by
  refine ⟨fetch_transcript_loop_count_le polls now _ 0, ?_, ?_⟩
  · intro h
    exact fetch_transcript_loop_timeout polls now _ 0
      (fun k hk => by simpa using h k hk)
  · intro j e h hj hr
    exact fetch_transcript_loop_error polls now j _ 0 e
      (fun k hk => by simpa using h k hk) (by simpa using hj) hr

/-- C4 witness: with a budget of 20 seconds (four iterations) and a
transport failure at the second iteration, the loop returns that failure
after exactly two status queries. -/
theorem fetch_transcript_bounded_polling_witness :
    (fetch_transcript
        (fun i => if i = 0 then PollOutcome.running
                  else PollOutcome.transportError "net down")
        "12:00:00" 20).1 = FetchResult.fail "net down" ∧
    List.count FetchEvent.statusQuery
      (fetch_transcript
        (fun i => if i = 0 then PollOutcome.running
                  else PollOutcome.transportError "net down")
        "12:00:00" 20).2 = 2 :=
  (fetch_transcript_bounded_polling
      (fun i => if i = 0 then PollOutcome.running
                else PollOutcome.transportError "net down")
      "12:00:00" 20).2.2 1 "net down" (by decide) (by decide) (by decide)

/-- C10: a budget strictly below the 5 second poll interval yields a zero
iteration loop: no sleep, no status query, and the immediate timeout
failure.  Moreover the first event of any run, when there is one, is a
sleep, and a successful result implies at least one full sleep happened
before it, so even an already ended session is never reported in less than
one poll interval. -/
theorem fetch_transcript_zero_iterations (polls : Nat → PollOutcome)
    (now : String) (max_wait_seconds : Nat) :
    (max_wait_seconds < 5 →
      fetch_transcript polls now max_wait_seconds =
        (FetchResult.fail "Max wait time exceeded", [])) ∧
    ((fetch_transcript polls now max_wait_seconds).2 = [] ∨
      (fetch_transcript polls now max_wait_seconds).2.head? =
        some FetchEvent.sleep) ∧
    (∀ t er, (fetch_transcript polls now max_wait_seconds).1 =
        FetchResult.ok t er →
      1 ≤ List.count FetchEvent.sleep
        (fetch_transcript polls now max_wait_seconds).2) := by
  refine ⟨?_, fetch_transcript_loop_head polls now 0 _,
    fun t er h => fetch_transcript_loop_ok_sleeps polls now _ 0 t er h⟩
  intro h
  have hz : max_wait_seconds / poll_interval = 0 := Nat.div_eq_of_lt h
  show fetch_transcript_loop polls now 0 (max_wait_seconds / poll_interval) = _
  rw [hz]
  rfl

/-- C10 witness: a 3 second budget returns the timeout failure with no
events at all, even though the session is ended from the start. -/
theorem fetch_transcript_zero_iterations_witness :
    fetch_transcript (fun _ => PollOutcome.endedOk [] none) "12:00:00" 3 =
      (FetchResult.fail "Max wait time exceeded", []) :=
  (fetch_transcript_zero_iterations
      (fun _ => PollOutcome.endedOk [] none) "12:00:00" 3).1 (by omega)

/-- Selection test of the code: truthy text and cleaned role AGENT or
USER (the cleaning removes every occurrence of the marker). -/
def keep_message (m : Msg) : Bool :=
  decide (msg_text m ≠ "" ∧ msg_role m ∈ (["AGENT", "USER"] : List String))

/-- Selection test as worded by the claim: non empty text and prefix
stripped role AGENT or USER. -/
def keep_message_claimed (m : Msg) : Bool :=
  decide (msg_text m ≠ "" ∧ claim_role m ∈ (["AGENT", "USER"] : List String))

/-- C5 amended: the transcript is exactly the filter and map of the raw
message list keeping the messages with truthy text whose role, after
removing every occurrence of the text MESSAGE_ROLE_, is AGENT or USER,
each entry carrying that cleaned role, the original text and the
processing timestamp. -/
theorem buildTranscript_filter_map (now : String) (msgs : List Msg) :
    buildTranscript now msgs =
      (msgs.filter keep_message).map
        (fun m =>
          { role := msg_role m, text := msg_text m, timestamp := now }) := by
  induction msgs with
  | nil => rfl
  | cons m rest ih =>
    by_cases h : msg_text m ≠ "" ∧ msg_role m ∈ (["AGENT", "USER"] : List String)
    · have hb : keep_message m = true := decide_eq_true h
      simp only [buildTranscript]
      rw [if_pos h, List.filter_cons_of_pos hb, List.map_cons, ih]
    · have hb : ¬ keep_message m = true := by
        simpa [keep_message] using h
      simp only [buildTranscript]
      rw [if_neg h, List.filter_cons_of_neg hb]
      exact ih

/-- Sample raw message list containing the agent, user and tool roles, a
message with empty text, and one message whose role embeds the marker text
twice. -/
def sample_messages : List Msg :=
  [⟨some "MESSAGE_ROLE_AGENT", some "hi"⟩,
   ⟨some "MESSAGE_ROLE_USER", some "yo"⟩,
   ⟨some "MESSAGE_ROLE_TOOL", some "tool"⟩,
   ⟨some "MESSAGE_ROLE_AGENT", some ""⟩,
   ⟨some "MESSAGE_ROLE_MESSAGE_ROLE_AGENT", some "x"⟩]

/-- C5 counterexample: the sample list contains messages with the agent,
user and tool roles and a message with empty text, yet the produced
transcript is not the claimed one (the non empty messages whose role after
stripping the MESSAGE_ROLE_ prefix is AGENT or USER, with stripped role
and original text): the code removes every occurrence of MESSAGE_ROLE_,
so the message with the doubled marker is kept as AGENT although its
prefix stripped role is MESSAGE_ROLE_AGENT. -/
theorem buildTranscript_not_prefix_strip :
    Msg.mk (some "MESSAGE_ROLE_AGENT") (some "hi") ∈ sample_messages ∧
    Msg.mk (some "MESSAGE_ROLE_USER") (some "yo") ∈ sample_messages ∧
    Msg.mk (some "MESSAGE_ROLE_TOOL") (some "tool") ∈ sample_messages ∧
    Msg.mk (some "MESSAGE_ROLE_AGENT") (some "") ∈ sample_messages ∧
    buildTranscript "t0" sample_messages ≠
      (sample_messages.filter keep_message_claimed).map
        (fun m =>
          { role := claim_role m, text := msg_text m, timestamp := "t0" }) := by
  refine ⟨by decide, by decide, by decide, by decide, by decide⟩

/-! ### Configuration loading (app.py lines 79-92)

The parsed configuration document is an object, modelled as an association
list from keys to values of a small JSON value type.  The loader reads the
three flat keys with dict get and their Python defaults; nothing else of
the document is inspected.
-/

/-- Minimal JSON value type for the configuration document. -/
inductive Json where
  | null
  | str (s : String)
  | num (n : Int)
  | obj (fields : List (String × Json))

/-- Dictionary lookup on an object body (Python dict get without default
returns None for a missing key; parsed JSON objects have distinct keys). -/
def jsonGet : List (String × Json) → String → Option Json
  | [], _ => none
  | (k, v) :: rest, key => if k = key then some v else jsonGet rest key

/-- Configuration state set by _load_call_config. -/
structure CallConfigState where
  customer_info : Json
  call_settings : Json
  ai_prompt : Json

/-- Embedding of UltravoxTwilioCallSystem._load_call_config (app.py lines
79-92) on an already parsed document: the three top level keys are read
with dict get and the defaults empty object, empty object and empty
string. -/
def load_call_config (config : List (String × Json)) : CallConfigState :=
  { customer_info := (jsonGet config "customer_info").getD (Json.obj [])
    call_settings := (jsonGet config "call_settings").getD (Json.obj [])
    ai_prompt := (jsonGet config "ai_prompt").getD (Json.str "") }

/-- Configuration document holding a single named use case, in the
use_cases shape described by the specification. -/
def use_cases_doc : List (String × Json) :=
  [("use_cases", Json.obj
    [("uc1", Json.obj
      [("name", Json.str "Loan reminder"),
       ("description", Json.str "Reminder call"),
       ("customer_info", Json.obj [("name", Json.str "Amit")]),
       ("call_settings", Json.obj [("temperature", Json.num 0)]),
       ("ai_prompt", Json.str "P")])])]

/-- C9 counterexample: on a document carrying only a top level use_cases
mapping, the loader does not load the named use case at all: every field
comes out as its Python default, in particular the prompt is the empty
string rather than the prompt P of the use case. -/
theorem load_call_config_ignores_use_cases :
    load_call_config use_cases_doc =
      { customer_info := Json.obj [], call_settings := Json.obj [],
        ai_prompt := Json.str "" } ∧
    Json.str "P" ≠ Json.str "" := by
  refine ⟨rfl, by simp⟩

/-- C9 amended: the loader reads only the flat variant.  The three top
level keys customer_info, call_settings and ai_prompt are loaded when
present, and a top level use_cases entry is ignored entirely: prepending
it to any document does not change the loaded state. -/
theorem load_call_config_flat_only (x : Json)
    (rest : List (String × Json)) (ci cs p : Json) :
    load_call_config (("use_cases", x) :: rest) = load_call_config rest ∧
    load_call_config
      [("customer_info", ci), ("call_settings", cs), ("ai_prompt", p)] =
      { customer_info := ci, call_settings := cs, ai_prompt := p } := by
  exact ⟨rfl, rfl⟩

end VoiceDashboard
